import Mathlib

/-!
# Verification of the Job Recommendation System (src/app.py)

A shallow embedding of the pure logic of `app.py`:

* `calculate_match_score` (class `JobMatcher`): skill-overlap scoring with
  two-decimal rounding.  Python's `round(x, 2)` rounds half to even, so the
  embedding works over `ℚ` with an explicit round-half-even function.
* `_format_search_query` (class `JobMatcher`): translation of the internal
  preference record into the TheirStack API filter shape.  A Python dict with
  a fixed set of possible keys is embedded as a structure of `Option` fields,
  `none` meaning "key absent".
* `search_jobs` (class `JobMatcher`): the HTTP call is effectful; its outcome
  (success / non-success status / network exception) is made an explicit input
  and the `st.error` report an explicit output.
* `process_uploaded_file`: the extraction libraries (PyPDF2, python-docx,
  `.read().decode`) are external collaborators; what they would do for the
  given file is made an explicit input (`ExtractOutcome`).
* the step-3 routing of `main` (searching → results / back to preferences).
-/

set_option maxRecDepth 4096

/-- Python's `str.lower`, character by character (the identifiers the app
lower-cases are ASCII). -/
def strLower (s : String) : String :=
  String.mk (s.data.map Char.toLower)

/-- A job posting as consumed by `calculate_match_score`: only the
`required_skills` key matters there, and `job.get("required_skills", [])`
defaults to the empty list when the key is absent. -/
structure Job where
  required_skills : Option (List String)
deriving DecidableEq

/-- Round-half-even on `ℚ`, the tie-breaking rule of Python's builtin
`round` (banker's rounding). -/
def roundHalfEven (q : ℚ) : ℤ :=
  if q - ⌊q⌋ < 1 / 2 then ⌊q⌋
  else if 1 / 2 < q - ⌊q⌋ then ⌊q⌋ + 1
  else if ⌊q⌋ % 2 = 0 then ⌊q⌋ else ⌊q⌋ + 1

/-- `round(x, 2)` of Python: round to two decimal places, ties to even. -/
def roundTo2 (q : ℚ) : ℚ :=
  (roundHalfEven (q * 100) : ℚ) / 100

/-- `JobMatcher.calculate_match_score` (src/app.py lines 164-174):
both skill lists are reduced to sets; an empty required-skill set scores
exactly `0.0`; otherwise the intersection fraction times 100, rounded to two
decimals. -/
def calculate_match_score (job : Job) (candidate_skills : List String) : ℚ :=
  let required := (job.required_skills.getD []).toFinset
  let candidate := candidate_skills.toFinset
  if required = ∅ then 0
  else roundTo2 (((required ∩ candidate).card : ℚ) / (required.card : ℚ) * 100)

/-- The internal query record built in `main` (src/app.py lines 366-374) and
consumed by `_format_search_query`.  Each field is `Option`-valued: `none`
models a key absent from the Python dict (`query.get(k)` returns `None`). -/
structure Query where
  title : Option String
  location : Option String
  company : Option String
  remote : Option Bool
  date_posted : Option String
  skills : Option (List String)
  experience_level : Option String
deriving DecidableEq

/-- The TheirStack filter dict produced by `_format_search_query`: the set of
keys the function can emit, `none` meaning the key is not in the dict. -/
structure FormattedQuery where
  posted_at_max_age_days : Option ℕ
  company_name_or : Option (List String)
  job_title_contains_any : Option (List String)
  location_contains_any : Option (List String)
  remote_contains_any : Option (List String)
  technologies_contains_any : Option (List String)
  seniority_contains_any : Option (List String)
deriving DecidableEq

/-- `JobMatcher._format_search_query` (src/app.py lines 117-162), line by
line: the recency elif-chain (default 90), then each conditional filter.
Python truthiness of `query.get(k)`: `None` and `""` (and `[]`) are falsy. -/
def format_search_query (query : Query) : FormattedQuery :=
  { posted_at_max_age_days :=
      some (if query.date_posted = some "Last 24 hours" then 1
            else if query.date_posted = some "Last 7 days" then 7
            else if query.date_posted = some "Last 30 days" then 30
            else 90)
    company_name_or :=
      match query.company with
      | some s => if s = "" then none else some [s]
      | none => none
    job_title_contains_any :=
      match query.title with
      | some s => if s = "" then none else some [s]
      | none => none
    location_contains_any :=
      match query.location with
      | some s => if s = "" then none else some [s]
      | none => none
    remote_contains_any :=
      if query.remote = some true then some ["true"] else none
    technologies_contains_any :=
      match query.skills with
      | some l => if l = [] then none else some l
      | none => none
    seniority_contains_any :=
      match query.experience_level with
      | some s =>
          if s = "" then none
          else if strLower s = "entry" ∨ strLower s = "mid" ∨ strLower s = "senior"
               then some [strLower s] else none
      | none => none }

/-- The outcome of the `requests.post` call inside `search_jobs`
(src/app.py lines 101-112): a 200 response with a parsed job list, a
non-success status (on which `raise_for_status` raises), or a network
exception raised by `requests.post` itself. -/
inductive SearchOutcome where
  | success : List Job → SearchOutcome
  | httpError : ℕ → String → SearchOutcome
  | networkError : String → SearchOutcome
deriving DecidableEq

/-- `JobMatcher.search_jobs` (src/app.py lines 92-115): the try/except wraps
the whole call; any exception is caught at the call site, reported via
`st.error` (second component), and an empty list is returned.  There is a
single request attempt and no retry. -/
def search_jobs : SearchOutcome → List Job × Option String
  | SearchOutcome.success jobs => (jobs, none)
  | SearchOutcome.httpError status body =>
      ([], some ("Error searching jobs: " ++ toString status ++ " - " ++ body))
  | SearchOutcome.networkError msg =>
      ([], some ("Error searching jobs: " ++ msg))

/-- What the extraction library would do for the uploaded file: return text,
or raise (message of the exception). -/
inductive ExtractOutcome where
  | ok : String → ExtractOutcome
  | fail : String → ExtractOutcome
deriving DecidableEq

/-- An uploaded file: its name, and the behaviour of the per-format
extraction collaborator on it. -/
structure UploadedFile where
  name : String
  extract : ExtractOutcome
deriving DecidableEq

/-- `uploaded_file.name.split(chr(46))[-1].lower()` (src/app.py line 181):
the lower-cased text after the final dot of the name — the last element of
the dot-split, which is the whole name when it has no dot (Python's `split`
never returns an empty list).  Implemented directly as the longest dot-free
suffix of the name. -/
def fileExtension (name : String) : String :=
  strLower (String.mk (name.data.reverse.takeWhile (fun c => c ≠ '.')).reverse)

/-- The result of `process_uploaded_file`: the extracted text (`None` on any
failure) and the `st.error` report, if one was issued. -/
structure ProcessResult where
  text : Option String
  error : Option String
deriving DecidableEq

/-- `process_uploaded_file` (src/app.py lines 176-205): dispatch on the
declared extension; an unsupported extension reports and returns `None`; an
extraction exception is caught by the surrounding try/except, reported, and
`None` is returned.  The function is total: no exception reaches the caller. -/
def process_uploaded_file (file : Option UploadedFile) : ProcessResult :=
  match file with
  | none => { text := none, error := none }
  | some f =>
      let ext := fileExtension f.name
      if ext = "pdf" ∨ ext = "docx" ∨ ext = "txt" then
        match f.extract with
        | ExtractOutcome.ok t => { text := some t, error := none }
        | ExtractOutcome.fail m =>
            { text := none, error := some ("Error processing file: " ++ m) }
      else
        { text := none, error := some ("Unsupported file format: " ++ ext) }

/-- The step-3 routing of `main` (src/app.py lines 379-392): with the search
result `jobs` in hand, a non-empty list sets `st.session_state.step = 4`;
an empty list keeps step 3, shows the warning, and only the
"Adjust Preferences" button (modelled by `adjustClicked`) moves to step 2. -/
def nextStepAfterSearch (jobs : List Job) (adjustClicked : Bool) : ℕ :=
  if jobs ≠ [] then 4
  else if adjustClicked then 2 else 3

/-! ## Properties of round-half-even -/

lemma floor_le_roundHalfEven (q : ℚ) : ⌊q⌋ ≤ roundHalfEven q := by
  unfold roundHalfEven
  split_ifs <;> omega

lemma roundHalfEven_le_floor_add_one (q : ℚ) : roundHalfEven q ≤ ⌊q⌋ + 1 := by
  unfold roundHalfEven
  split_ifs <;> omega

lemma roundHalfEven_mono {q r : ℚ} (h : q ≤ r) :
    roundHalfEven q ≤ roundHalfEven r := by
  have hfm : ⌊q⌋ ≤ ⌊r⌋ := Int.floor_mono h
  rcases eq_or_lt_of_le hfm with hf | hf
  · have hfr : ⌊r⌋ = ⌊q⌋ := hf.symm
    have hd : q - (⌊q⌋ : ℚ) ≤ r - (⌊r⌋ : ℚ) := by
      rw [hfr]
      linarith
    unfold roundHalfEven
    rw [hfr]
    split_ifs <;> first | omega | (exfalso; linarith)
  · calc roundHalfEven q ≤ ⌊q⌋ + 1 := roundHalfEven_le_floor_add_one q
      _ ≤ ⌊r⌋ := by omega
      _ ≤ roundHalfEven r := floor_le_roundHalfEven r

lemma roundHalfEven_intCast (n : ℤ) : roundHalfEven (n : ℚ) = n := by
  unfold roundHalfEven
  rw [Int.floor_intCast]
  norm_num

lemma roundTo2_mono {q r : ℚ} (h : q ≤ r) : roundTo2 q ≤ roundTo2 r := by
  unfold roundTo2
  have h1 : roundHalfEven (q * 100) ≤ roundHalfEven (r * 100) :=
    roundHalfEven_mono (by linarith)
  have h2 : ((roundHalfEven (q * 100) : ℚ)) ≤ ((roundHalfEven (r * 100) : ℚ)) := by
    exact_mod_cast h1
  linarith

lemma roundTo2_nonneg {q : ℚ} (h : 0 ≤ q) : 0 ≤ roundTo2 q := by
  have h1 : roundHalfEven ((0 : ℤ) : ℚ) ≤ roundHalfEven (q * 100) :=
    roundHalfEven_mono (by rw [Int.cast_zero]; positivity)
  rw [roundHalfEven_intCast] at h1
  have h2 : (0 : ℚ) ≤ ((roundHalfEven (q * 100) : ℚ)) := by exact_mod_cast h1
  unfold roundTo2
  linarith

lemma roundTo2_le_100 {q : ℚ} (h : q ≤ 100) : roundTo2 q ≤ 100 := by
  have h1 : roundHalfEven (q * 100) ≤ roundHalfEven ((10000 : ℤ) : ℚ) :=
    roundHalfEven_mono (by norm_num; linarith)
  rw [roundHalfEven_intCast] at h1
  have h2 : ((roundHalfEven (q * 100) : ℚ)) ≤ 10000 := by exact_mod_cast h1
  unfold roundTo2
  linarith

/-! ## C1: the scoring formula and the worked example -/

/-- C1: for every job with a non-empty required-skill set and every candidate
skill list, `calculate_match_score` returns `100 * |intersection| /
|required|` rounded to two decimal places; and on required skills
`["Python", "SQL", "AWS"]` with candidate skills `["Python", "SQL"]` it
returns exactly `66.67`. -/
theorem match_score_formula :
    (∀ (job : Job) (candidate_skills : List String),
       (job.required_skills.getD []).toFinset ≠ ∅ →
       calculate_match_score job candidate_skills =
         roundTo2 (100 *
           (((job.required_skills.getD []).toFinset ∩ candidate_skills.toFinset).card : ℚ) /
           ((job.required_skills.getD []).toFinset.card : ℚ))) ∧
    calculate_match_score ⟨some ["Python", "SQL", "AWS"]⟩ ["Python", "SQL"] = 6667 / 100 := by
  constructor
  · intro job candidate_skills h
    unfold calculate_match_score
    rw [if_neg h]
    congr 1
    ring
  · have h0 : ¬((["Python", "SQL", "AWS"] : List String).toFinset = ∅) := by decide
    have h1 : ((["Python", "SQL", "AWS"] : List String).toFinset ∩
        (["Python", "SQL"] : List String).toFinset).card = 2 := by decide
    have h2 : (["Python", "SQL", "AWS"] : List String).toFinset.card = 3 := by decide
    simp only [calculate_match_score, Option.getD, h1, h2, if_neg h0]
    norm_num [roundTo2, roundHalfEven]

/-- Concrete instantiation of `match_score_formula` at a job requiring
`["Python", "SQL"]` and a candidate knowing `["SQL"]`. -/
theorem match_score_formula_witness :
    ((Job.mk (some ["Python", "SQL"])).required_skills.getD []).toFinset ≠ ∅ ∧
    calculate_match_score (Job.mk (some ["Python", "SQL"])) ["SQL"] =
      roundTo2 (100 *
        ((((Job.mk (some ["Python", "SQL"])).required_skills.getD []).toFinset ∩
          (["SQL"] : List String).toFinset).card : ℚ) /
        (((Job.mk (some ["Python", "SQL"])).required_skills.getD []).toFinset.card : ℚ)) :=
  ⟨by decide, match_score_formula.1 (Job.mk (some ["Python", "SQL"])) ["SQL"] (by decide)⟩

/-! ## C2: empty required-skill set scores exactly zero -/

/-- C2: for every job whose required-skill set is empty and every candidate
skill list (including non-empty ones), `calculate_match_score` returns
exactly `0.0`. -/
theorem match_score_empty_required :
    ∀ (job : Job) (candidate_skills : List String),
      (job.required_skills.getD []).toFinset = ∅ →
      calculate_match_score job candidate_skills = 0 := by
  intro job candidate_skills h
  unfold calculate_match_score
  rw [if_pos h]

/-- Concrete instantiation of `match_score_empty_required`: a job listing no
required skills scores `0.0` against a non-empty candidate skill list. -/
theorem match_score_empty_required_witness :
    ((Job.mk (some [])).required_skills.getD []).toFinset = ∅ ∧
    calculate_match_score (Job.mk (some [])) ["Python"] = 0 :=
  ⟨by decide, match_score_empty_required (Job.mk (some [])) ["Python"] (by decide)⟩

/-! ## C6: monotonicity in the candidate skill set -/

/-- C6: enlarging the candidate skill set (as a set) never lowers the match
score. -/
theorem match_score_monotone :
    ∀ (job : Job) (a b : List String),
      a.toFinset ⊆ b.toFinset →
      calculate_match_score job a ≤ calculate_match_score job b := by
  intro job a b hsub
  unfold calculate_match_score
  by_cases h : (job.required_skills.getD []).toFinset = ∅
  · rw [if_pos h, if_pos h]
  · rw [if_neg h, if_neg h]
    apply roundTo2_mono
    have hcard : ((job.required_skills.getD []).toFinset ∩ a.toFinset).card ≤
        ((job.required_skills.getD []).toFinset ∩ b.toFinset).card :=
      Finset.card_le_card (Finset.inter_subset_inter (Finset.Subset.refl _) hsub)
    have hc : (((job.required_skills.getD []).toFinset ∩ a.toFinset).card : ℚ) ≤
        (((job.required_skills.getD []).toFinset ∩ b.toFinset).card : ℚ) := by
      exact_mod_cast hcard
    have hn : (0 : ℚ) ≤ (((job.required_skills.getD []).toFinset.card : ℚ))⁻¹ := by
      positivity
    rw [div_eq_mul_inv, div_eq_mul_inv]
    have := mul_le_mul_of_nonneg_right hc hn
    nlinarith

/-- Concrete instantiation of `match_score_monotone`: adding `"AWS"` to the
candidate skills does not lower the score for a job requiring `["AWS"]`. -/
theorem match_score_monotone_witness :
    (["Python"] : List String).toFinset ⊆ (["Python", "AWS"] : List String).toFinset ∧
    calculate_match_score (Job.mk (some ["AWS"])) ["Python"] ≤
      calculate_match_score (Job.mk (some ["AWS"])) ["Python", "AWS"] :=
  ⟨by decide, match_score_monotone (Job.mk (some ["AWS"])) ["Python"] ["Python", "AWS"] (by decide)⟩

/-! ## C10: bounds and set-invariance of the score -/

/-- C10: every score lies in `[0, 100]`, and the score only depends on the
required-skill list and the candidate list through the sets they reduce to,
so duplicating or reordering entries in either list leaves it unchanged. -/
theorem match_score_bounds_and_invariance :
    (∀ (job : Job) (candidate_skills : List String),
       0 ≤ calculate_match_score job candidate_skills ∧
       calculate_match_score job candidate_skills ≤ 100) ∧
    (∀ (j1 j2 : Job) (c1 c2 : List String),
       (j1.required_skills.getD []).toFinset = (j2.required_skills.getD []).toFinset →
       c1.toFinset = c2.toFinset →
       calculate_match_score j1 c1 = calculate_match_score j2 c2) := by
  constructor
  · intro job candidate_skills
    unfold calculate_match_score
    by_cases h : (job.required_skills.getD []).toFinset = ∅
    · rw [if_pos h]
      norm_num
    · rw [if_neg h]
      have hpos : (0 : ℚ) < ((job.required_skills.getD []).toFinset.card : ℚ) := by
        have := Finset.card_pos.mpr (Finset.nonempty_iff_ne_empty.mpr h)
        exact_mod_cast this
      have hle : ((job.required_skills.getD []).toFinset ∩
          candidate_skills.toFinset).card ≤ (job.required_skills.getD []).toFinset.card :=
        Finset.card_le_card Finset.inter_subset_left
      have hle2 : (((job.required_skills.getD []).toFinset ∩
          candidate_skills.toFinset).card : ℚ) ≤
          ((job.required_skills.getD []).toFinset.card : ℚ) := by exact_mod_cast hle
      constructor
      · apply roundTo2_nonneg
        positivity
      · apply roundTo2_le_100
        have hfrac : (((job.required_skills.getD []).toFinset ∩
            candidate_skills.toFinset).card : ℚ) /
            ((job.required_skills.getD []).toFinset.card : ℚ) ≤ 1 :=
          (div_le_one hpos).mpr hle2
        linarith
  · intro j1 j2 c1 c2 h1 h2
    unfold calculate_match_score
    rw [h1, h2]

/-- Concrete instantiation of `match_score_bounds_and_invariance`: a
duplicated required-skill list and a reordered candidate list give the same
score. -/
theorem match_score_invariance_witness :
    ((Job.mk (some ["Python", "Python", "SQL"])).required_skills.getD []).toFinset =
      ((Job.mk (some ["SQL", "Python"])).required_skills.getD []).toFinset ∧
    (["Go", "SQL"] : List String).toFinset = (["SQL", "Go"] : List String).toFinset ∧
    calculate_match_score (Job.mk (some ["Python", "Python", "SQL"])) ["Go", "SQL"] =
      calculate_match_score (Job.mk (some ["SQL", "Python"])) ["SQL", "Go"] :=
  ⟨by decide, by decide,
    match_score_bounds_and_invariance.2 (Job.mk (some ["Python", "Python", "SQL"]))
      (Job.mk (some ["SQL", "Python"])) ["Go", "SQL"] ["SQL", "Go"] (by decide) (by decide)⟩

/-! ## C3: the recency filter is always present -/

/-- The recency lookup table as the spec words it: 1 for "Last 24 hours",
7 for "Last 7 days", 30 for "Last 30 days", 90 for every other label,
including an absent one.  Stated separately from `format_search_query`
so the source's elif-chain can be compared against it. -/
def recencyLookupSpec (label : Option String) : ℕ :=
  if label = some "Last 24 hours" then 1
  else if label = some "Last 7 days" then 7
  else if label = some "Last 30 days" then 30
  else 90

/-- C3: every formatted query carries the `posted_at_max_age_days` key, with
the value given by the fixed lookup table (1/7/30 for the three recognized
labels, 90 otherwise, including an absent label), so the API's
required-filter constraint is always satisfied. -/
theorem format_query_recency :
    ∀ query : Query,
      (format_search_query query).posted_at_max_age_days =
        some (recencyLookupSpec query.date_posted) := by
  intro query
  rfl

/-! ## C4: every other filter key is emitted iff its condition holds -/

/-- C4: each optional filter key is emitted exactly when its source value is
present and passes its condition (non-empty string for title / company /
location, `remote` exactly true, non-empty skill list, lower-cased seniority
among entry / mid / senior), no key is emitted from an absent value, and the
spec's worked example formats to exactly the expected five-key filter. -/
theorem format_query_filters :
    (∀ query : Query,
      (format_search_query query).company_name_or =
        query.company.bind (fun s => if s = "" then none else some [s]) ∧
      (format_search_query query).job_title_contains_any =
        query.title.bind (fun s => if s = "" then none else some [s]) ∧
      (format_search_query query).location_contains_any =
        query.location.bind (fun s => if s = "" then none else some [s]) ∧
      (format_search_query query).remote_contains_any =
        (if query.remote = some true then some ["true"] else none) ∧
      (format_search_query query).technologies_contains_any =
        query.skills.bind (fun l => if l = [] then none else some l) ∧
      (format_search_query query).seniority_contains_any =
        query.experience_level.bind (fun s =>
          if strLower s = "entry" ∨ strLower s = "mid" ∨ strLower s = "senior"
          then some [strLower s] else none)) ∧
    format_search_query
        ⟨some "", none, some "Acme", some true, some "Last 7 days",
         some ["Python"], some "senior"⟩ =
      ⟨some 7, some ["Acme"], none, none, some ["true"], some ["Python"],
       some ["senior"]⟩ := by
  constructor
  · intro query
    obtain ⟨t, l, c, r, d, sk, e⟩ := query
    refine ⟨?_, ?_, ?_, ?_, ?_, ?_⟩
    · cases c <;> rfl
    · cases t <;> rfl
    · cases l <;> rfl
    · rfl
    · cases sk <;> rfl
    · cases e with
      | none => rfl
      | some s =>
          by_cases hs : s = ""
          · subst hs
            rfl
          · show (if s = "" then none
                  else if strLower s = "entry" ∨ strLower s = "mid" ∨ strLower s = "senior"
                       then some [strLower s] else none) =
                 (if strLower s = "entry" ∨ strLower s = "mid" ∨ strLower s = "senior"
                  then some [strLower s] else none)
            rw [if_neg hs]
  · decide

/-! ## C5: a minimal preference record does NOT always give a one-key query -/

/-- The property C5 asserts of the formatted query: the recency filter is
present and every other key is absent. -/
def onlyRecencyKey (f : FormattedQuery) : Prop :=
  f.posted_at_max_age_days.isSome = true ∧
  f.company_name_or = none ∧
  f.job_title_contains_any = none ∧
  f.location_contains_any = none ∧
  f.remote_contains_any = none ∧
  f.technologies_contains_any = none ∧
  f.seniority_contains_any = none

/-- C5 as stated is false: a preference record with title, company, location
and skills all absent, but with the remote flag true and a recognized
seniority, formats to a query that also carries `remote_contains_any` and
`seniority_contains_any`. -/
theorem format_query_only_recency_cex :
    (Query.mk none none none (some true) none none (some "senior")).title = none ∧
    (Query.mk none none none (some true) none none (some "senior")).company = none ∧
    (Query.mk none none none (some true) none none (some "senior")).location = none ∧
    (Query.mk none none none (some true) none none (some "senior")).skills = none ∧
    (format_search_query
      (Query.mk none none none (some true) none none (some "senior"))).remote_contains_any =
        some ["true"] ∧
    (format_search_query
      (Query.mk none none none (some true) none none (some "senior"))).seniority_contains_any =
        some ["senior"] ∧
    ¬ onlyRecencyKey (format_search_query
        (Query.mk none none none (some true) none none (some "senior"))) := by
  unfold onlyRecencyKey
  decide

/-- C5 amended: when title, company, location and skills are all absent or
empty, AND the remote flag is not exactly true, AND the seniority string
(lower-cased) is not among entry / mid / senior, the formatted query carries
exactly one key, `posted_at_max_age_days`, which defaults to 90 when the
recency label is unrecognized or absent. -/
theorem format_query_only_recency :
    ∀ query : Query,
      (query.title = none ∨ query.title = some "") →
      (query.company = none ∨ query.company = some "") →
      (query.location = none ∨ query.location = some "") →
      (query.skills = none ∨ query.skills = some []) →
      query.remote ≠ some true →
      (∀ s, query.experience_level = some s →
         ¬(strLower s = "entry" ∨ strLower s = "mid" ∨ strLower s = "senior")) →
      onlyRecencyKey (format_search_query query) ∧
      (query.date_posted ≠ some "Last 24 hours" →
       query.date_posted ≠ some "Last 7 days" →
       query.date_posted ≠ some "Last 30 days" →
       (format_search_query query).posted_at_max_age_days = some 90) := by
  intro query ht hc hl hsk hr he
  obtain ⟨t, l, c, r, d, sk, e⟩ := query
  constructor
  · unfold onlyRecencyKey
    refine ⟨rfl, ?_, ?_, ?_, ?_, ?_, ?_⟩
    · rcases hc with h | h
      · have hx : c = none := h
        subst hx
        rfl
      · have hx : c = some "" := h
        subst hx
        rfl
    · rcases ht with h | h
      · have hx : t = none := h
        subst hx
        rfl
      · have hx : t = some "" := h
        subst hx
        rfl
    · rcases hl with h | h
      · have hx : l = none := h
        subst hx
        rfl
      · have hx : l = some "" := h
        subst hx
        rfl
    · have hx : r ≠ some true := hr
      show (if r = some true then some ["true"] else none) = none
      rw [if_neg hx]
    · rcases hsk with h | h
      · have hx : sk = none := h
        subst hx
        rfl
      · have hx : sk = some [] := h
        subst hx
        rfl
    · cases e with
      | none => rfl
      | some s =>
          have hno := he s rfl
          by_cases hs : s = ""
          · subst hs
            rfl
          · show (if s = "" then none
                  else if strLower s = "entry" ∨ strLower s = "mid" ∨ strLower s = "senior"
                       then some [strLower s] else none) = none
            rw [if_neg hs, if_neg hno]
  · intro h1 h2 h3
    show some (if d = some "Last 24 hours" then 1
               else if d = some "Last 7 days" then 7
               else if d = some "Last 30 days" then 30 else 90) = some 90
    rw [if_neg h1, if_neg h2, if_neg h3]

/-- Concrete instantiation of `format_query_only_recency` at the all-absent
preference record. -/
theorem format_query_only_recency_witness :
    onlyRecencyKey (format_search_query (Query.mk none none none none none none none)) ∧
    (format_search_query
        (Query.mk none none none none none none none)).posted_at_max_age_days = some 90 := by
  have h := format_query_only_recency (Query.mk none none none none none none none)
    (Or.inl rfl) (Or.inl rfl) (Or.inl rfl) (Or.inl rfl) (by decide)
    (fun s hs => Option.noConfusion hs)
  exact ⟨h.1, h.2 (by decide) (by decide) (by decide)⟩

/-! ## C7: search failures are caught, reported, and yield an empty list -/

/-- C7: a non-success HTTP status or a network exception never escapes
`search_jobs`: the failure is reported (with status and body detail in the
HTTP case) and the empty job list is returned; only a success outcome can
yield jobs. -/
theorem search_jobs_error_handling :
    (∀ (status : ℕ) (body : String),
       search_jobs (SearchOutcome.httpError status body) =
         ([], some ("Error searching jobs: " ++ toString status ++ " - " ++ body))) ∧
    (∀ msg : String,
       search_jobs (SearchOutcome.networkError msg) =
         ([], some ("Error searching jobs: " ++ msg))) ∧
    (∀ outcome : SearchOutcome,
       ((search_jobs outcome).1 = [] ∧ ((search_jobs outcome).2).isSome = true) ∨
       (∃ jobs, outcome = SearchOutcome.success jobs ∧ search_jobs outcome = (jobs, none))) := by
  refine ⟨fun status body => rfl, fun msg => rfl, ?_⟩
  intro outcome
  cases outcome with
  | success jobs => exact Or.inr ⟨jobs, rfl, rfl⟩
  | httpError status body => exact Or.inl ⟨rfl, rfl⟩
  | networkError msg => exact Or.inl ⟨rfl, rfl⟩

/-! ## C8: unsupported extensions and extraction failures never crash -/

/-- C8: a file whose declared extension is not pdf / docx / txt yields no
text and an unsupported-format report; and an internal extraction failure is
caught, yielding no text and an error report.  `process_uploaded_file` is a
total function, so no exception reaches its caller. -/
theorem process_file_error_handling :
    (∀ file : UploadedFile,
       fileExtension file.name ≠ "pdf" →
       fileExtension file.name ≠ "docx" →
       fileExtension file.name ≠ "txt" →
       process_uploaded_file (some file) =
         { text := none,
           error := some ("Unsupported file format: " ++ fileExtension file.name) }) ∧
    (∀ (file : UploadedFile) (msg : String),
       file.extract = ExtractOutcome.fail msg →
       (process_uploaded_file (some file)).text = none ∧
       ((process_uploaded_file (some file)).error).isSome = true) := by
  constructor
  · intro file h1 h2 h3
    obtain ⟨nm, ex⟩ := file
    have hcond : ¬(fileExtension nm = "pdf" ∨ fileExtension nm = "docx" ∨
        fileExtension nm = "txt") := by
      intro h
      rcases h with h | h | h
      · exact h1 h
      · exact h2 h
      · exact h3 h
    show (if fileExtension nm = "pdf" ∨ fileExtension nm = "docx" ∨ fileExtension nm = "txt"
          then _ else _) = _
    rw [if_neg hcond]
  · intro file msg hm
    obtain ⟨nm, ex⟩ := file
    have hx : ex = ExtractOutcome.fail msg := hm
    subst hx
    by_cases hcond : fileExtension nm = "pdf" ∨ fileExtension nm = "docx" ∨
        fileExtension nm = "txt"
    · refine ⟨?_, ?_⟩ <;> (simp only [process_uploaded_file]; rw [if_pos hcond]; try rfl)
    · refine ⟨?_, ?_⟩ <;> (simp only [process_uploaded_file]; rw [if_neg hcond]; try rfl)

/-- Concrete instantiation of `process_file_error_handling`: a ".csv" upload
is reported as unsupported and yields no text. -/
theorem process_file_error_handling_witness :
    fileExtension "resume.csv" ≠ "pdf" ∧
    fileExtension "resume.csv" ≠ "docx" ∧
    fileExtension "resume.csv" ≠ "txt" ∧
    process_uploaded_file (some (UploadedFile.mk "resume.csv" (ExtractOutcome.ok "text"))) =
      { text := none, error := some ("Unsupported file format: " ++ fileExtension "resume.csv") } :=
  ⟨by decide, by decide, by decide,
   process_file_error_handling.1 (UploadedFile.mk "resume.csv" (ExtractOutcome.ok "text"))
     (by decide) (by decide) (by decide)⟩

/-! ## C9: zero search results never reach the results step -/

/-- C9: when the search returns zero jobs the session never moves to the
results step (4): it stays at the searching step (3) unless the user takes
the corrective "Adjust Preferences" transition back to step 2; step 4 is
reached only when at least one job came back. -/
theorem searching_step_routing :
    (∀ adjustClicked : Bool,
       nextStepAfterSearch [] adjustClicked ≠ 4 ∧
       (nextStepAfterSearch [] adjustClicked = 2 ∨ nextStepAfterSearch [] adjustClicked = 3) ∧
       (adjustClicked = true → nextStepAfterSearch [] adjustClicked = 2) ∧
       (adjustClicked = false → nextStepAfterSearch [] adjustClicked = 3)) ∧
    (∀ (jobs : List Job) (adjustClicked : Bool),
       nextStepAfterSearch jobs adjustClicked = 4 → jobs ≠ []) := by
  constructor
  · intro adjustClicked
    cases adjustClicked <;> exact ⟨by decide, by decide, by decide, by decide⟩
  · intro jobs adjustClicked h hnil
    subst hnil
    cases adjustClicked <;> simp [nextStepAfterSearch] at h

/-- Concrete instantiation of `searching_step_routing`: a run that reached
step 4 had a non-empty job list. -/
theorem searching_step_routing_witness :
    nextStepAfterSearch [Job.mk none] false = 4 ∧ ([Job.mk none] : List Job) ≠ [] :=
  ⟨by decide, searching_step_routing.2 [Job.mk none] false (by decide)⟩
